/-
Verification of the Hivemind multi-agent research coordination engine.

Shallow embedding of `agent.py` (ResearchAgent) and `orchestrator.py`
(ResearchOrchestrator).  The Model Gateway (`ollama.chat`) is an external
collaborator and is modelled as an oracle: orchestrator-level loops receive
`gwAt : Nat -> GatewayResult` giving the outcome of the k-th gateway call of
that operation, and `tsAt : Nat -> String` giving the wall-clock string
(`datetime.now().isoformat()`) observed around the k-th call.  Python dicts
are modelled as insertion-ordered association lists with in-place update,
Python lists as Lean lists, and Python exceptions as explicit error values.
-/
import Mathlib

namespace Hivemind

/-- A chat message, i.e. a Python dict of the form `{"role": ..., "content": ...}`. -/
structure Msg where
  role : String
  content : String
deriving DecidableEq

/-- Outcome of one `ollama.chat` round-trip: the response text
`response[\x27message\x27][\x27content\x27]`, or the string rendering of the raised
exception. -/
inductive GatewayResult where
  | success (text : String)
  | failure (err : String)
deriving DecidableEq

/-- One record of `ResearchAgent.conversation_history`:
`{"timestamp": ..., "prompt": ..., "response": ...}` (agent.py lines 64-68). -/
structure HistoryRecord where
  timestamp : String
  prompt : String
  response : String
deriving DecidableEq

/-- One record of `ResearchAgent.research_notes`:
`{"timestamp": ..., "note": ...}` (agent.py lines 122-125). -/
structure NoteRecord where
  timestamp : String
  note : String
deriving DecidableEq

/-- State of `ResearchAgent` (agent.py lines 17-24). -/
structure ResearchAgent where
  name : String
  specialty : String
  model : String
  conversation_history : List HistoryRecord
  research_notes : List NoteRecord
  system_prompt : String
  improvement_count : Nat
deriving DecidableEq

/-- `ResearchAgent._create_initial_prompt` (agent.py lines 26-43). -/
def createInitialPrompt (name specialty : String) : String :=
  "You are " ++ name ++ ", an expert AI researcher specializing in " ++ specialty ++
  ".\n\nYour role in this research team:\n- Collaborate with other AI researchers to produce high-quality research papers\n- Contribute insights from your specialty area\n- Critically evaluate ideas and proposals\n- Search for relevant information when needed\n- Help structure and write sections of research papers\n- Be concise but thorough in your responses\n\nYou can improve your own system prompt by analyzing what works and what doesn\x27t.\nWhen suggesting prompt improvements, focus on making yourself more effective at research tasks.\n\nCurrent specialty: " ++
  specialty ++ "\nResearch approach: Rigorous, evidence-based, collaborative\n"

/-- `ResearchAgent.__init__` (agent.py lines 17-24). -/
def ResearchAgent.init (name specialty model : String) : ResearchAgent :=
  { name := name
    specialty := specialty
    model := model
    conversation_history := []
    research_notes := []
    system_prompt := createInitialPrompt name specialty
    improvement_count := 0 }

/-- Python slice `xs[-n:]`: the last `n` elements (all of them when `n >= len`). -/
def lastN (n : Nat) (xs : List α) : List α :=
  xs.drop (xs.length - n)

/-- The message list `generate_response` hands to `ollama.chat`
(agent.py lines 48-54): system instructions, then (if `context` is truthy)
`context[-10:]`, then the user prompt.  `none` models Python `None`. -/
def sentMessages (a : ResearchAgent) (prompt : String) (context : Option (List Msg)) : List Msg :=
  let base := [Msg.mk "system" a.system_prompt]
  let withCtx :=
    match context with
    | some ctx => if ctx.isEmpty then base else base ++ lastN 10 ctx
    | none => base
  withCtx ++ [Msg.mk "user" prompt]

/-- `ResearchAgent.generate_response` (agent.py lines 45-73).  On success the
response is returned and a history record appended; on gateway failure the
textual error marker is returned and, because the `append` sits inside the
`try` after the gateway call, the history is left untouched. -/
def generate_response (a : ResearchAgent) (prompt : String) (context : Option (List Msg))
    (gw : List Msg → GatewayResult) (now : String) : String × ResearchAgent :=
  match gw (sentMessages a prompt context) with
  | .success text =>
      (text,
       { a with conversation_history :=
           a.conversation_history ++ [{ timestamp := now, prompt := prompt, response := text }] })
  | .failure e => ("Error generating response: " ++ e, a)

/-- Truthiness of the `feedback` argument: Python `if feedback` is false for
both `None` and the empty string. -/
def feedbackLine (feedback : Option String) : String :=
  match feedback with
  | some f => if f = "" then "" else "Feedback received: " ++ f
  | none => ""

/-- The meta-prompt of `ResearchAgent.improve_system_prompt`
(agent.py lines 79-97). -/
def improvementPrompt (a : ResearchAgent) (feedback : Option String) : String :=
  "Analyze your current system prompt and suggest an improved version.\n\nCurrent System Prompt:\n" ++
  a.system_prompt ++
  "\n\nRecent Performance Context:\n- You\x27ve been part of " ++
  toString a.conversation_history.length ++
  " discussions\n- Specialty: " ++ a.specialty ++
  "\n- Improvement iteration: " ++ toString a.improvement_count ++
  "\n\n" ++ feedbackLine feedback ++
  "\n\nSuggest an improved system prompt that makes you more effective at:\n1. Contributing specialized knowledge\n2. Collaborating with other agents\n3. Critical thinking and analysis\n4. Research paper writing\n\nRespond with ONLY the new system prompt, nothing else."

/-- The two messages `improve_system_prompt` hands to `ollama.chat`
(agent.py lines 100-106). -/
def improveMessages (a : ResearchAgent) (feedback : Option String) : List Msg :=
  [Msg.mk "system" "You are a meta-AI that improves AI system prompts.",
   Msg.mk "user" (improvementPrompt a feedback)]

/-- Python `str.strip()` with no argument: remove leading and trailing
whitespace, modelled directly on the character list. -/
def pyStrip (s : String) : String :=
  ⟨((s.data.dropWhile Char.isWhitespace).reverse.dropWhile Char.isWhitespace).reverse⟩

/-- `ResearchAgent.improve_system_prompt` (agent.py lines 75-118).  On success
the stripped response becomes the new system prompt and the counter is
incremented; on gateway failure nothing is mutated. -/
def improve_system_prompt (a : ResearchAgent) (feedback : Option String)
    (gw : List Msg → GatewayResult) : String × ResearchAgent :=
  match gw (improveMessages a feedback) with
  | .success text =>
      let newPrompt := pyStrip text
      ("âœ¨ Prompt improved! (v" ++ toString (a.improvement_count + 1) ++
         ")\n\nOld length: " ++ toString a.system_prompt.length ++
         " chars\nNew length: " ++ toString newPrompt.length ++ " chars",
       { a with system_prompt := newPrompt, improvement_count := a.improvement_count + 1 })
  | .failure e => ("Error improving prompt: " ++ e, a)

/-- `ResearchAgent.add_research_note` (agent.py lines 120-125). -/
def add_research_note (a : ResearchAgent) (note : String) (now : String) : ResearchAgent :=
  { a with research_notes := a.research_notes ++ [{ timestamp := now, note := note }] }

/-- One record of `ResearchOrchestrator.discussion_log`.  Brainstorm records
are `{round, agent, type, content}`, discussion records add `topic`, research
records are `{agent, type, query, analysis}` (the analysis text is stored in
`content`); absent keys are `none`. -/
structure LogEntry where
  round : Option Nat
  agent : String
  type : String
  topic : Option String
  query : Option String
  content : String
deriving DecidableEq

/-- State of `ResearchOrchestrator` (orchestrator.py lines 20-27).  The
`satisfaction_scores` dict is an insertion-ordered association list with
unique keys. -/
structure Orchestrator where
  agents : List ResearchAgent
  discussion_log : List LogEntry
  research_topic : String
  satisfaction_scores : List (String × Int)
  target_satisfaction : Int
deriving DecidableEq

/-- `ResearchOrchestrator.__init__` (orchestrator.py lines 20-27). -/
def Orchestrator.empty : Orchestrator :=
  { agents := []
    discussion_log := []
    research_topic := ""
    satisfaction_scores := []
    target_satisfaction := 8 }

/-- Python dict read `d.get(k)` on the association-list model. -/
def dictLookup (d : List (String × Int)) (k : String) : Option Int :=
  (d.find? (fun p => p.1 = k)).map (fun p => p.2)

/-- Python dict write `d[k] = v` on the association-list model: overwrite the
entry in place when the key exists (keys are unique, so the first hit is the
only one), append a new entry otherwise. -/
def dictSet : List (String × Int) → String → Int → List (String × Int)
  | [], k, v => [(k, v)]
  | p :: rest, k, v => if p.1 = k then (k, v) :: rest else p :: dictSet rest k v

/-- `ResearchOrchestrator.add_agent` (orchestrator.py lines 29-34). -/
def add_agent (o : Orchestrator) (name specialty model : String) : Orchestrator :=
  { o with
    agents := o.agents ++ [ResearchAgent.init name specialty model]
    satisfaction_scores := dictSet o.satisfaction_scores name 5 }

/-- `ResearchOrchestrator.set_research_topic` (orchestrator.py lines 44-46). -/
def set_research_topic (o : Orchestrator) (topic : String) : Orchestrator :=
  { o with research_topic := topic }

/-- The response text produced by the k-th gateway call, as seen by the
orchestrator: `generate_response` returns the model text on success and the
textual error marker on failure. -/
def respTextAt (gwAt : Nat → GatewayResult) (k : Nat) : String :=
  match gwAt k with
  | .success t => t
  | .failure e => "Error generating response: " ++ e

/-- The brainstorm prompt (orchestrator.py lines 58-66), built from the topic,
the round index, and the idea strings accumulated in `brainstorm_results` at
prompt-construction time (`brainstorm_results[-5:]`, inlined as text). -/
def brainstormPrompt (topic : String) (roundNum rounds : Nat) (results : List String)
    (specialty : String) : String :=
  "Research Topic: " ++ topic ++ "\n                \nBrainstorming Round " ++
  toString (roundNum + 1) ++ "/" ++ toString rounds ++ "\n\n" ++
  (if results.isEmpty then "Initial brainstorming - share your key ideas:"
   else "Previous ideas from team:") ++ "\n" ++
  (if results.isEmpty then "" else String.intercalate "\n" (lastN 5 results)) ++
  "\n\nAs an expert in " ++ specialty ++
  ", provide 2-3 key research directions or hypotheses.\nBe specific and build upon previous ideas where relevant."

/-- Output of the inner agent loop of one brainstorm round. -/
structure BrainRound where
  agents : List ResearchAgent
  prompts : List String
  ideas : List String
  entries : List LogEntry
  kEnd : Nat

/-- The inner loop `for agent in self.agents` of one brainstorm round
(orchestrator.py lines 57-76).  `results` is the `brainstorm_results` list,
which the source extends only after the round ends, so it is constant here;
`k` is the index of the next gateway call.  `prompts` records each prompt
handed to `generate_response`, in call order. -/
def brainstormAgents (topic : String) (roundNum rounds : Nat) (results : List String)
    (gwAt : Nat → GatewayResult) (tsAt : Nat → String) :
    List ResearchAgent → Nat → BrainRound
  | [], k => ⟨[], [], [], [], k⟩
  | a :: rest, k =>
      let prompt := brainstormPrompt topic roundNum rounds results a.specialty
      let pr := generate_response a prompt none (fun _ => gwAt k) (tsAt k)
      let tail := brainstormAgents topic roundNum rounds results gwAt tsAt rest (k + 1)
      ⟨pr.2 :: tail.agents,
       prompt :: tail.prompts,
       ("[" ++ a.name ++ "]: " ++ pr.1) :: tail.ideas,
       { round := some (roundNum + 1), agent := a.name, type := "brainstorm",
         topic := none, query := none, content := pr.1 } :: tail.entries,
       tail.kEnd⟩

/-- Output of the round loop of a brainstorm session. -/
structure BrainLoop where
  agents : List ResearchAgent
  results : List String
  prompts : List String
  entries : List LogEntry
  kEnd : Nat

/-- The outer loop `for round_num in range(rounds)` of
`conduct_brainstorm_session` (orchestrator.py lines 54-78), with `fuel`
rounds left, current round index `r`, and `brainstorm_results = results`.
After each round the formatted `round_ideas` are appended to `results`. -/
def brainstormLoop (topic : String) (rounds : Nat) (gwAt : Nat → GatewayResult)
    (tsAt : Nat → String) :
    Nat → Nat → List ResearchAgent → List String → Nat → BrainLoop
  | 0, _, agents, results, k => ⟨agents, results, [], [], k⟩
  | fuel + 1, r, agents, results, k =>
      let rd := brainstormAgents topic r rounds results gwAt tsAt agents k
      let rest := brainstormLoop topic rounds gwAt tsAt fuel (r + 1) rd.agents
        (results ++ rd.ideas) rd.kEnd
      ⟨rest.agents, rest.results, rd.prompts ++ rest.prompts,
       rd.entries ++ rest.entries, rest.kEnd⟩

/-- `ResearchOrchestrator.conduct_brainstorm_session` (orchestrator.py lines
48-80): returns the full `brainstorm_results` list and the updated
orchestrator state. -/
def conduct_brainstorm_session (o : Orchestrator) (rounds : Nat)
    (gwAt : Nat → GatewayResult) (tsAt : Nat → String) : List String × Orchestrator :=
  let lp := brainstormLoop o.research_topic rounds gwAt tsAt rounds 0 o.agents [] 0
  (lp.results,
   { o with agents := lp.agents, discussion_log := o.discussion_log ++ lp.entries })

/-- The prompts built during a whole brainstorm session, in call order
(ghost projection of the `prompt` variable of the source loop). -/
def brainstormPrompts (o : Orchestrator) (rounds : Nat)
    (gwAt : Nat → GatewayResult) (tsAt : Nat → String) : List String :=
  (brainstormLoop o.research_topic rounds gwAt tsAt rounds 0 o.agents [] 0).prompts

/-- Python `str.join` applied to a slice of the `context` list of
`structured_discussion`.  The elements are dicts (`Msg`), not strings, so a
nonempty slice raises `TypeError: sequence item 0: expected str instance,
dict found`; only the empty slice joins to `""`. -/
def pyJoinOverMsgs (msgs : List Msg) : Except String String :=
  match msgs with
  | [] => .ok ""
  | _ :: _ => .error "TypeError: sequence item 0: expected str instance, dict found"

/-- The discussion prompt f-string (orchestrator.py lines 126-135).  Building
it evaluates `chr(10).join(context[-3:])` whenever `context` is truthy, which
raises `TypeError` because the context items are dicts. -/
def discussionPrompt (topic rtopic : String) (roundNum rounds : Nat) (context : List Msg)
    (specialty : String) : Except String String :=
  match (if context.isEmpty then Except.ok "" else pyJoinOverMsgs (lastN 3 context)) with
  | .error e => .error e
  | .ok joined =>
      .ok ("Discussion Topic: " ++ topic ++ "\n                \nRound " ++
        toString (roundNum + 1) ++ "/" ++ toString rounds ++ "\nResearch Context: " ++
        rtopic ++ "\n\n" ++
        (if context.isEmpty then "Opening statement:" else "Recent discussion:") ++ "\n" ++
        joined ++ "\n\nProvide your perspective from " ++ specialty ++
        ". Be analytical and critical.\n" ++
        (if context.isEmpty then "" else "Challenge or build upon previous points."))

/-- State carried by the structured-discussion loops.  `failed` holds the
text of a raised exception; mutations performed before the raise are kept,
mirroring how a Python exception propagates out of the method while
`self.discussion_log` and the agents keep their partial updates. -/
structure DiscState where
  agents : List ResearchAgent
  discussion : List String
  context : List Msg
  entries : List LogEntry
  kEnd : Nat
  failed : Option String

/-- The inner loop `for agent in self.agents` of one discussion round
(orchestrator.py lines 125-149).  Each completed turn appends `"[name]:
response"` to `discussion`, an `{"role": "assistant", ...}` message to
`context`, and a log entry; the growing `context` is passed to
`generate_response` as conversation history. -/
def discussionAgents (topic rtopic : String) (roundNum rounds : Nat)
    (gwAt : Nat → GatewayResult) (tsAt : Nat → String) :
    List ResearchAgent → List String → List Msg → Nat → DiscState
  | [], disc, ctx, k => ⟨[], disc, ctx, [], k, none⟩
  | a :: rest, disc, ctx, k =>
      match discussionPrompt topic rtopic roundNum rounds ctx a.specialty with
      | .error e => ⟨a :: rest, disc, ctx, [], k, some e⟩
      | .ok prompt =>
          let pr := generate_response a prompt (some ctx) (fun _ => gwAt k) (tsAt k)
          let message := "[" ++ a.name ++ "]: " ++ pr.1
          let tail := discussionAgents topic rtopic roundNum rounds gwAt tsAt rest
            (disc ++ [message]) (ctx ++ [Msg.mk "assistant" message]) (k + 1)
          ⟨pr.2 :: tail.agents, tail.discussion, tail.context,
           { round := some (roundNum + 1), agent := a.name, type := "discussion",
             topic := some topic, query := none, content := pr.1 } :: tail.entries,
           tail.kEnd, tail.failed⟩

/-- The outer loop `for round_num in range(rounds)` of `structured_discussion`
(orchestrator.py lines 124-149). -/
def discussionRounds (topic rtopic : String) (rounds : Nat)
    (gwAt : Nat → GatewayResult) (tsAt : Nat → String) :
    Nat → Nat → List ResearchAgent → List String → List Msg → Nat → DiscState
  | 0, _, agents, disc, ctx, k => ⟨agents, disc, ctx, [], k, none⟩
  | fuel + 1, r, agents, disc, ctx, k =>
      let st := discussionAgents topic rtopic r rounds gwAt tsAt agents disc ctx k
      match st.failed with
      | some _ => st
      | none =>
          let rest := discussionRounds topic rtopic rounds gwAt tsAt fuel (r + 1)
            st.agents st.discussion st.context st.kEnd
          ⟨rest.agents, rest.discussion, rest.context, st.entries ++ rest.entries,
           rest.kEnd, rest.failed⟩

/-- `ResearchOrchestrator.structured_discussion` (orchestrator.py lines
117-151): the returned `discussion` list on normal completion, or the raised
exception; the orchestrator keeps every mutation made before a raise. -/
def structured_discussion (o : Orchestrator) (topic : String) (rounds : Nat)
    (gwAt : Nat → GatewayResult) (tsAt : Nat → String) :
    Except String (List String) × Orchestrator :=
  let st := discussionRounds topic o.research_topic rounds gwAt tsAt rounds 0 o.agents [] [] 0
  ((match st.failed with
    | some e => .error e
    | none => .ok st.discussion),
   { o with agents := st.agents, discussion_log := o.discussion_log ++ st.entries })

/-- The satisfaction-rating prompt (orchestrator.py lines 158-175). -/
def satisfactionPrompt (rtopic : String) (notesLen logLen : Nat) : String :=
  "Evaluate the research progress on: " ++ rtopic ++
  "\n\nYour contributions so far: " ++ toString notesLen ++
  " research notes\nTeam discussions: " ++ toString logLen ++
  " messages\n\nRate your satisfaction with:\n1. Quality of research conducted\n2. Depth of analysis\n3. Collaboration effectiveness\n4. Readiness to publish findings\n\nRespond with ONLY a number from 1-10, where:\n1-3: Needs significant more work\n4-6: Making progress but incomplete\n7-8: Good progress, minor refinements needed\n9-10: Excellent, ready to publish\n\nYour rating:"

/-- Accumulating worker for `pySplitWs`: `acc` holds the current token in
reverse. -/
def splitWsAux : List Char → List Char → List String
  | [], acc => if acc.isEmpty then [] else [⟨acc.reverse⟩]
  | c :: cs, acc =>
      if c.isWhitespace then
        if acc.isEmpty then splitWsAux cs [] else ⟨acc.reverse⟩ :: splitWsAux cs []
      else splitWsAux cs (c :: acc)

/-- Python `str.split()` with no argument: split on whitespace runs and drop
empty fields. -/
def pySplitWs (s : String) : List String :=
  splitWsAux s.data []

/-- Numeric value of a list of decimal digit characters (`int` applied to the
joined digits). -/
def digitsVal (cs : List Char) : Nat :=
  cs.foldl (fun acc c => acc * 10 + (c.toNat - 48)) 0

/-- The score extraction of `evaluate_satisfaction` (orchestrator.py lines
177-184): take the first whitespace token of the response, keep its digit
characters, convert with `int`, clamp with `max(1, min(10, score))`; any
failure (no token, no digits) lands in the `except` arm and yields 5. -/
def parseScore (response : String) : Int :=
  match pySplitWs response with
  | [] => 5
  | tok :: _ =>
      let ds := tok.toList.filter Char.isDigit
      if ds.isEmpty then 5
      else max 1 (min 10 (Int.ofNat (digitsVal ds)))

/-- The per-agent loop of `evaluate_satisfaction` (orchestrator.py lines
157-184): query each agent, then write the parsed score into
`satisfaction_scores` under the agent's name. -/
def evalLoop (rtopic : String) (logLen : Nat) (gwAt : Nat → GatewayResult)
    (tsAt : Nat → String) :
    List ResearchAgent → List (String × Int) → Nat →
    List ResearchAgent × List (String × Int) × Nat
  | [], scores, k => ([], scores, k)
  | a :: rest, scores, k =>
      let prompt := satisfactionPrompt rtopic a.research_notes.length logLen
      let pr := generate_response a prompt none (fun _ => gwAt k) (tsAt k)
      let scores2 := dictSet scores a.name (parseScore pr.1)
      let tail := evalLoop rtopic logLen gwAt tsAt rest scores2 (k + 1)
      (pr.2 :: tail.1, tail.2.1, tail.2.2)

/-- `ResearchOrchestrator.evaluate_satisfaction` (orchestrator.py lines
153-186): returns the (shared) scores dict and the updated state. -/
def evaluate_satisfaction (o : Orchestrator) (gwAt : Nat → GatewayResult)
    (tsAt : Nat → String) : List (String × Int) × Orchestrator :=
  let t := evalLoop o.research_topic o.discussion_log.length gwAt tsAt
    o.agents o.satisfaction_scores 0
  (t.2.1, { o with agents := t.1, satisfaction_scores := t.2.1 })

/-- The arithmetic mean of the satisfaction values,
`sum(self.satisfaction_scores.values()) / len(self.satisfaction_scores)`,
modelled over the rationals. -/
def meanScores (o : Orchestrator) : ℚ :=
  ((o.satisfaction_scores.map (fun p => p.2)).sum : ℤ) /
    (o.satisfaction_scores.length : ℚ)

/-- `ResearchOrchestrator.check_consensus` (orchestrator.py lines 188-194). -/
def check_consensus (o : Orchestrator) : Bool :=
  if o.satisfaction_scores.isEmpty then false
  else decide ((o.target_satisfaction : ℚ) ≤ meanScores o)

/-- The analysis prompt of `conduct_research_phase` (orchestrator.py lines
97-103).  `resultsText` stands for `json.dumps(results, indent=2)`; the
Research Retrieval service is external, so the raw result set is opaque. -/
def researchPrompt (query resultsText rtopic : String) : String :=
  "You searched for: \"" ++ query ++ "\"\n            \nSearch Results:\n" ++
  resultsText ++
  "\n\nAnalyze these results and extract key findings relevant to our research on: " ++
  rtopic ++ "\nProvide a concise summary of the most important insights."

/-- State carried by the research loop. -/
structure ResearchState where
  agents : List ResearchAgent
  results : List (String × String)
  entries : List LogEntry
  kEnd : Nat
  failed : Option String

/-- The `for query in search_queries` loop of `conduct_research_phase`
(orchestrator.py lines 88-113).  Every query is assigned to `self.agents[0]`;
on an empty roster the subscript raises `IndexError` before any mutation.
`searchAt k` is the opaque retrieval result for the k-th query processed. -/
def researchLoop (rtopic : String) (searchAt : Nat → String)
    (gwAt : Nat → GatewayResult) (tsAt : Nat → String) :
    List String → List ResearchAgent → Nat → ResearchState
  | [], agents, k => ⟨agents, [], [], k, none⟩
  | q :: rest, agents, k =>
      match agents with
      | [] => ⟨[], [], [], k, some "IndexError: list index out of range"⟩
      | a0 :: others =>
          let resultsText := searchAt k
          let prompt := researchPrompt q resultsText rtopic
          let pr := generate_response a0 prompt none (fun _ => gwAt k) (tsAt k)
          let a2 := add_research_note pr.2 ("Search: " ++ q ++ "\nFindings: " ++ pr.1) (tsAt k)
          let tail := researchLoop rtopic searchAt gwAt tsAt rest (a2 :: others) (k + 1)
          ⟨tail.agents, (q, resultsText) :: tail.results,
           { round := none, agent := a0.name, type := "research",
             topic := none, query := some q, content := pr.1 } :: tail.entries,
           tail.kEnd, tail.failed⟩

/-- `ResearchOrchestrator.conduct_research_phase` (orchestrator.py lines
82-115): returns the query-to-results mapping, or the raised exception. -/
def conduct_research_phase (o : Orchestrator) (queries : List String)
    (searchAt : Nat → String) (gwAt : Nat → GatewayResult) (tsAt : Nat → String) :
    Except String (List (String × String)) × Orchestrator :=
  let st := researchLoop o.research_topic searchAt gwAt tsAt queries o.agents 0
  ((match st.failed with
    | some e => .error e
    | none => .ok st.results),
   { o with agents := st.agents, discussion_log := o.discussion_log ++ st.entries })

/-- Call `generate_response` on the agent at list position `i` and put the
updated agent back in place, mirroring a Python method call on
`self.agents[i]`.  Out-of-range positions leave the list unchanged (never
reached by the callers below). -/
def callAt (prompt : String) (gwAt : Nat → GatewayResult) (tsAt : Nat → String) (k : Nat) :
    List ResearchAgent → Nat → String × List ResearchAgent
  | [], _ => ("", [])
  | a :: rest, 0 =>
      let pr := generate_response a prompt none (fun _ => gwAt k) (tsAt k)
      (pr.1, pr.2 :: rest)
  | a :: rest, i + 1 =>
      let t := callAt prompt gwAt tsAt k rest i
      (t.1, a :: t.2)

/-- Title prompt (orchestrator.py lines 204-206). -/
def titlePrompt (rtopic : String) : String :=
  "Generate a compelling research paper title for our work on: " ++ rtopic ++
  "\n\nRespond with ONLY the title, nothing else."

/-- Abstract prompt (orchestrator.py lines 212-220). -/
def abstractPrompt (rtopic : String) : String :=
  "Write a concise abstract (150-200 words) for our research paper on: " ++ rtopic ++
  "\n\nInclude:\n- Main objective\n- Methodology\n- Key findings\n- Significance\n\nRespond with ONLY the abstract text."

/-- Introduction prompt (orchestrator.py lines 227-235). -/
def introPrompt (rtopic : String) : String :=
  "Write the Introduction section for our paper on: " ++ rtopic ++
  "\n\nInclude:\n- Background and motivation\n- Research gap\n- Our contributions\n- Paper structure\n\nProvide the complete introduction section."

/-- Methodology prompt (orchestrator.py lines 242-247). -/
def methodPrompt (specialty rtopic : String) : String :=
  "Write a methodology subsection from your expertise in " ++ specialty ++
  "\n            \nFor the research topic: " ++ rtopic ++
  "\n\nDescribe the methods, techniques, or approaches relevant to your area.\nKeep it concise (2-3 paragraphs)."

/-- Results prompt (orchestrator.py lines 256-261). -/
def resultsPrompt (rtopic : String) : String :=
  "Write the Results and Discussion section.\n\nResearch topic: " ++ rtopic ++
  "\n\nSynthesize the key findings and discuss their implications.\nInclude analysis and interpretation."

/-- Conclusion prompt (orchestrator.py lines 266-274). -/
def conclusionPrompt : String :=
  "Write the Conclusion section.\n\nSummarize:\n- Main contributions\n- Findings\n- Limitations\n- Future work\n\nBe concise but comprehensive."

/-- The methodology loop of `generate_paper_sections` (orchestrator.py lines
240-252): every agent contributes a `\subsection` keyed by its specialty. -/
def methodologyLoop (rtopic : String) (gwAt : Nat → GatewayResult) (tsAt : Nat → String) :
    List ResearchAgent → Nat → List ResearchAgent × List String × Nat
  | [], k => ([], [], k)
  | a :: rest, k =>
      let pr := generate_response a (methodPrompt a.specialty rtopic) none
        (fun _ => gwAt k) (tsAt k)
      let part := "\\subsection\x7b" ++ a.specialty ++ "\x7d\n" ++ pr.1
      let tail := methodologyLoop rtopic gwAt tsAt rest (k + 1)
      (pr.2 :: tail.1, part :: tail.2.1, tail.2.2)

/-- `ResearchOrchestrator.generate_paper_sections` (orchestrator.py lines
196-278).  Section authors are chosen by roster position: agent 0 writes
title (stripped) and abstract, agent 1 (or 0 for a singleton roster) the
introduction, every agent a methodology subsection, and the last agent the
results and the conclusion.  An empty roster raises `IndexError` on
`self.agents[0]` before any mutation. -/
def generate_paper_sections (o : Orchestrator) (gwAt : Nat → GatewayResult)
    (tsAt : Nat → String) : Except String (List (String × String)) × Orchestrator :=
  match o.agents with
  | [] => (.error "IndexError: list index out of range", o)
  | a0 :: rest0 =>
      let pr1 := generate_response a0 (titlePrompt o.research_topic) none
        (fun _ => gwAt 0) (tsAt 0)
      let title := pyStrip pr1.1
      let pr2 := generate_response pr1.2 (abstractPrompt o.research_topic) none
        (fun _ => gwAt 1) (tsAt 1)
      let abstract := pr2.1
      let agents1 := pr2.2 :: rest0
      let idxIntro := if agents1.length > 1 then 1 else 0
      let c3 := callAt (introPrompt o.research_topic) gwAt tsAt 2 agents1 idxIntro
      let intro := c3.1
      let agents2 := c3.2
      let m := methodologyLoop o.research_topic gwAt tsAt agents2 3
      let agents3 := m.1
      let methodology := String.intercalate "\n\n" m.2.1
      let kNext := m.2.2
      let c4 := callAt (resultsPrompt o.research_topic) gwAt tsAt kNext agents3
        (agents3.length - 1)
      let results := c4.1
      let agents4 := c4.2
      let c5 := callAt conclusionPrompt gwAt tsAt (kNext + 1) agents4 (agents4.length - 1)
      let conclusion := c5.1
      let agents5 := c5.2
      (.ok [("title", title), ("abstract", abstract), ("introduction", intro),
            ("methodology", methodology), ("results", results), ("conclusion", conclusion)],
       { o with agents := agents5 })

/-- The per-agent loop of `trigger_self_improvement` (orchestrator.py lines
322-327). -/
def improveLoop (feedback : String) (gwAt : Nat → GatewayResult) :
    List ResearchAgent → Nat → List ResearchAgent × List (String × String) × Nat
  | [], k => ([], [], k)
  | a :: rest, k =>
      let pr := improve_system_prompt a (some feedback) (fun _ => gwAt k)
      let tail := improveLoop feedback gwAt rest (k + 1)
      (pr.2 :: tail.1, (a.name, pr.1) :: tail.2.1, tail.2.2)

/-- `ResearchOrchestrator.trigger_self_improvement` (orchestrator.py lines
320-327). -/
def trigger_self_improvement (o : Orchestrator) (gwAt : Nat → GatewayResult) :
    List (String × String) × Orchestrator :=
  let feedback := "Research topic: " ++ o.research_topic ++ ". Recent discussions: " ++
    toString o.discussion_log.length ++ "."
  let t := improveLoop feedback gwAt o.agents 0
  (t.2.1, { o with agents := t.1 })

/-- The orchestrator states reachable from a fresh session by the public
mutating operations of the Coordination Engine, with arbitrary gateway,
clock, and retrieval oracles. -/
inductive Reachable : Orchestrator → Prop where
  | empty : Reachable Orchestrator.empty
  | add (o : Orchestrator) (n s m : String) :
      Reachable o → Reachable (add_agent o n s m)
  | topic (o : Orchestrator) (t : String) :
      Reachable o → Reachable (set_research_topic o t)
  | brainstorm (o : Orchestrator) (rounds : Nat) (gwAt : Nat → GatewayResult)
      (tsAt : Nat → String) :
      Reachable o → Reachable (conduct_brainstorm_session o rounds gwAt tsAt).2
  | research (o : Orchestrator) (queries : List String) (searchAt : Nat → String)
      (gwAt : Nat → GatewayResult) (tsAt : Nat → String) :
      Reachable o → Reachable (conduct_research_phase o queries searchAt gwAt tsAt).2
  | discussion (o : Orchestrator) (t : String) (rounds : Nat)
      (gwAt : Nat → GatewayResult) (tsAt : Nat → String) :
      Reachable o → Reachable (structured_discussion o t rounds gwAt tsAt).2
  | evaluate (o : Orchestrator) (gwAt : Nat → GatewayResult) (tsAt : Nat → String) :
      Reachable o → Reachable (evaluate_satisfaction o gwAt tsAt).2
  | improve (o : Orchestrator) (gwAt : Nat → GatewayResult) :
      Reachable o → Reachable (trigger_self_improvement o gwAt).2
  | paper (o : Orchestrator) (gwAt : Nat → GatewayResult) (tsAt : Nat → String) :
      Reachable o → Reachable (generate_paper_sections o gwAt tsAt).2

/-- The names of the roster's agents, in roster order. -/
def namesOf (agents : List ResearchAgent) : List String :=
  agents.map (fun a => a.name)

/-- The specialties of the roster's agents, in roster order. -/
def specsOf (agents : List ResearchAgent) : List String :=
  agents.map (fun a => a.specialty)

/-- Concatenation of the images of a list-valued function (Python-style
flattening of a nested comprehension). -/
def catMap (f : α → List β) : List α → List β
  | [] => []
  | a :: l => f a ++ catMap f l

/-- The formatted idea strings one brainstorm round produces for the given
roster names, when its first gateway call is call `k`. -/
def roundIdeasAt (gwAt : Nat → GatewayResult) : List String → Nat → List String
  | [], _ => []
  | nm :: rest, k => ("[" ++ nm ++ "]: " ++ respTextAt gwAt k) :: roundIdeasAt gwAt rest (k + 1)

/-- The `brainstorm_results` snapshot after `m` further complete rounds,
starting from accumulated list `results` with next gateway call `k`. -/
def snapAt (gwAt : Nat → GatewayResult) (names : List String) :
    Nat → List String → Nat → List String
  | 0, results, _ => results
  | m + 1, results, k =>
      snapAt gwAt names m (results ++ roundIdeasAt gwAt names k) (k + names.length)

/-- Whether `needle` occurs as a contiguous run inside the list. -/
def listContains [BEq α] (needle : List α) : List α → Bool
  | [] => needle.isEmpty
  | a :: rest => needle.isPrefixOf (a :: rest) || listContains needle rest

/-- Whether `needle` occurs as a substring of `hay`. -/
def strContains (hay needle : String) : Bool :=
  listContains needle.toList hay.toList

/-- Ordering asserted by the specification sentence for Brainstorm, read with
roster position as the major sort key and round as the minor sort key: first
every round of the first agent, then every round of the second agent, and so
on.  Stated on the projection of the appended entries to (agent, round). -/
def rosterMajorRoundMinor (names : List String) (rounds : Nat)
    (entries : List LogEntry) : Prop :=
  entries.map (fun e => (e.agent, e.round)) =
    catMap (fun nm => (List.range rounds).map (fun r => (nm, some (r + 1)))) names

/-- A deterministic gateway oracle for concrete runs: call `k` succeeds with
a recognizable text. -/
def gwIdeas : Nat → GatewayResult :=
  fun k => .success (if k = 0 then "alpha" else if k = 1 then "beta" else
    "resp " ++ toString k)

/-- A gateway oracle that always fails. -/
def gwDown : Nat → GatewayResult :=
  fun _ => .failure "boom"

/-- A deterministic clock oracle for concrete runs. -/
def tsTick : Nat → String :=
  fun k => "2024-01-01T00:00:" ++ toString k

/-- A concrete two-agent session: roster `[A, B]`, topic `"X"`. -/
def oAB : Orchestrator :=
  set_research_topic (add_agent (add_agent Orchestrator.empty "A" "sA" "m") "B" "sB" "m") "X"

/-- A concrete one-agent session: roster `[A]`, topic `"X"`. -/
def oA : Orchestrator :=
  set_research_topic (add_agent Orchestrator.empty "A" "sA" "m") "X"

/-- Python dict key membership on the association-list model. -/
def hasKey (d : List (String × Int)) (n : String) : Prop :=
  ∃ p ∈ d, p.1 = n

/-- A session whose satisfaction table is `{"A": 9, "B": 9}` (target 8). -/
def consensusHi : Orchestrator :=
  { Orchestrator.empty with satisfaction_scores := [("A", 9), ("B", 9)] }

/-- A session whose satisfaction table is `{"A": 9, "B": 6}` (target 8). -/
def consensusLo : Orchestrator :=
  { Orchestrator.empty with satisfaction_scores := [("A", 9), ("B", 6)] }

/-! ### Helper lemmas -/

theorem lastN_length (n : Nat) (xs : List α) : (lastN n xs).length = min n xs.length := by
  simp [lastN]
  omega

theorem lastN_suffix (n : Nat) (xs : List α) : lastN n xs <:+ xs :=
  List.drop_suffix _ _

theorem generate_response_success (a : ResearchAgent) (p : String) (c : Option (List Msg))
    (gw : List Msg → GatewayResult) (t s : String) (h : gw (sentMessages a p c) = .success s) :
    generate_response a p c gw t =
      (s, { a with conversation_history :=
        a.conversation_history ++ [{ timestamp := t, prompt := p, response := s }] }) := by
  simp [generate_response, h]

theorem generate_response_failure (a : ResearchAgent) (p : String) (c : Option (List Msg))
    (gw : List Msg → GatewayResult) (t e : String) (h : gw (sentMessages a p c) = .failure e) :
    generate_response a p c gw t = ("Error generating response: " ++ e, a) := by
  simp [generate_response, h]

theorem generate_response_name (a : ResearchAgent) (p : String) (c : Option (List Msg))
    (gw : List Msg → GatewayResult) (t : String) :
    (generate_response a p c gw t).2.name = a.name := by
  cases h : gw (sentMessages a p c) <;> simp [generate_response, h]

theorem generate_response_specialty (a : ResearchAgent) (p : String) (c : Option (List Msg))
    (gw : List Msg → GatewayResult) (t : String) :
    (generate_response a p c gw t).2.specialty = a.specialty := by
  cases h : gw (sentMessages a p c) <;> simp [generate_response, h]

theorem generate_response_fst (a : ResearchAgent) (p : String) (c : Option (List Msg))
    (gwAt : Nat → GatewayResult) (k : Nat) (t : String) :
    (generate_response a p c (fun _ => gwAt k) t).1 = respTextAt gwAt k := by
  cases h : gwAt k <;> simp [generate_response, respTextAt, h]

theorem improve_name (a : ResearchAgent) (fb : Option String) (gw : List Msg → GatewayResult) :
    (improve_system_prompt a fb gw).2.name = a.name := by
  cases h : gw (improveMessages a fb) <;> simp [improve_system_prompt, h]

theorem dictLookup_dictSet_self (d : List (String × Int)) (k : String) (v : Int) :
    dictLookup (dictSet d k v) k = some v := by
  induction d with
  | nil => simp [dictSet, dictLookup]
  | cons p rest ih =>
      by_cases h : p.1 = k
      · simp [dictSet, h, dictLookup]
      · simp [dictSet, h, dictLookup, List.find?] at ih ⊢
        simpa [h] using ih

theorem dictLookup_cons (q : String × Int) (rest : List (String × Int)) (k' : String) :
    dictLookup (q :: rest) k' = if q.1 = k' then some q.2 else dictLookup rest k' := by
  by_cases h : q.1 = k' <;> simp [dictLookup, List.find?, h]

theorem dictLookup_dictSet_ne (d : List (String × Int)) (k k' : String) (v : Int)
    (h : k' ≠ k) : dictLookup (dictSet d k v) k' = dictLookup d k' := by
  induction d with
  | nil => simp [dictSet, dictLookup_cons, Ne.symm h, dictLookup]
  | cons p rest ih =>
      by_cases hp : p.1 = k
      · have hne : p.1 ≠ k' := by rw [hp]; exact Ne.symm h
        rw [dictSet, if_pos hp, dictLookup_cons, dictLookup_cons,
          if_neg (Ne.symm h : (k, v).1 ≠ k'), if_neg hne]
      · rw [dictSet, if_neg hp, dictLookup_cons, dictLookup_cons]
        by_cases hp' : p.1 = k' <;> simp [hp', ih]

theorem hasKey_cons (p : String × Int) (rest : List (String × Int)) (n : String) :
    hasKey (p :: rest) n ↔ p.1 = n ∨ hasKey rest n := by
  simp [hasKey]

theorem hasKey_dictSet (d : List (String × Int)) (k n : String) (v : Int) :
    hasKey (dictSet d k v) n ↔ n = k ∨ hasKey d n := by
  induction d with
  | nil => simp [dictSet, hasKey, eq_comm]
  | cons p rest ih =>
      by_cases hp : p.1 = k
      · rw [dictSet, if_pos hp, hasKey_cons, hasKey_cons, hp]
        tauto
      · rw [dictSet, if_neg hp, hasKey_cons, hasKey_cons, ih]
        tauto

theorem clamp_range (c : Prop) [Decidable c] (x : Int) :
    1 ≤ (if c then (5 : Int) else max 1 (min 10 x)) ∧
      (if c then (5 : Int) else max 1 (min 10 x)) ≤ 10 := by
  split
  · norm_num
  · exact ⟨le_max_left _ _, max_le (by norm_num) (min_le_left _ _)⟩

theorem parseScore_range (s : String) : 1 ≤ parseScore s ∧ parseScore s ≤ 10 := by
  unfold parseScore
  cases h : pySplitWs s with
  | nil => norm_num
  | cons tok rest => exact clamp_range _ _

theorem listContains_nil_needle [BEq α] (l : List α) : listContains ([] : List α) l = true := by
  cases l <;> simp [listContains, List.isPrefixOf]

theorem isPrefixOf_append_right [BEq α] [LawfulBEq α] (l t : List α) :
    l.isPrefixOf (l ++ t) = true := by
  induction l with
  | nil => simp [List.isPrefixOf]
  | cons a l ih => simp [List.isPrefixOf, ih]

theorem listContains_append_self [BEq α] [LawfulBEq α] (needle post : List α) :
    listContains needle (needle ++ post) = true := by
  cases needle with
  | nil => simp [listContains_nil_needle]
  | cons n ns =>
      have h := isPrefixOf_append_right (n :: ns) post
      simp only [List.cons_append] at h
      simp [listContains, h]

theorem listContains_append_mid [BEq α] [LawfulBEq α] (pre needle post : List α) :
    listContains needle (pre ++ needle ++ post) = true := by
  induction pre with
  | nil => simpa using listContains_append_self needle post
  | cons a pre ih =>
      have hc : (a :: pre) ++ needle ++ post = a :: (pre ++ needle ++ post) := by simp
      rw [hc]
      simp only [listContains]
      rw [ih, Bool.or_true]

theorem strContains_append_mid (pre x post : String) :
    strContains (pre ++ x ++ post) x = true := by
  have h : (pre ++ x ++ post).toList = pre.toList ++ x.toList ++ post.toList := by
    simp [String.toList]
  rw [strContains, h, listContains_append_mid]

theorem catMap_append (f : α → List β) (l₁ l₂ : List α) :
    catMap f (l₁ ++ l₂) = catMap f l₁ ++ catMap f l₂ := by
  induction l₁ with
  | nil => simp [catMap]
  | cons a l ih => simp [catMap, ih]

theorem catMap_range_succ (f : Nat → List β) (n : Nat) :
    catMap f (List.range (n + 1)) = f 0 ++ catMap (fun m => f (m + 1)) (List.range n) := by
  induction n with
  | zero => simp [catMap, List.range_succ]
  | succ n ih =>
      rw [List.range_succ, catMap_append, ih, List.range_succ, catMap_append]
      simp [catMap]

theorem catMap_congr (f g : α → List β) (l : List α) (h : ∀ a ∈ l, f a = g a) :
    catMap f l = catMap g l := by
  induction l with
  | nil => rfl
  | cons a l ih =>
      rw [catMap, catMap, h a (List.mem_cons_self a l),
        ih (fun x hx => h x (List.mem_cons_of_mem a hx))]

theorem catMap_length_const (f : α → List β) (l : List α) (n : Nat)
    (h : ∀ a ∈ l, (f a).length = n) : (catMap f l).length = l.length * n := by
  induction l with
  | nil => simp [catMap]
  | cons a l ih =>
      have ha := h a (List.mem_cons_self a l)
      have ih2 := ih (fun x hx => h x (List.mem_cons_of_mem a hx))
      simp only [catMap, List.length_append, ha, ih2, List.length_cons]
      ring

theorem ba_names (topic : String) (r R : Nat) (results : List String)
    (gwAt : Nat → GatewayResult) (tsAt : Nat → String) (agents : List ResearchAgent) (k : Nat) :
    namesOf (brainstormAgents topic r R results gwAt tsAt agents k).agents = namesOf agents := by
  induction agents generalizing k with
  | nil => rfl
  | cons a rest ih =>
      have h := ih (k + 1)
      simp only [namesOf] at h
      simp [brainstormAgents, namesOf, generate_response_name, h]

theorem ba_specs (topic : String) (r R : Nat) (results : List String)
    (gwAt : Nat → GatewayResult) (tsAt : Nat → String) (agents : List ResearchAgent) (k : Nat) :
    specsOf (brainstormAgents topic r R results gwAt tsAt agents k).agents = specsOf agents := by
  induction agents generalizing k with
  | nil => rfl
  | cons a rest ih =>
      have h := ih (k + 1)
      simp only [specsOf] at h
      simp [brainstormAgents, specsOf, generate_response_specialty, h]

theorem ba_entries (topic : String) (r R : Nat) (results : List String)
    (gwAt : Nat → GatewayResult) (tsAt : Nat → String) (agents : List ResearchAgent) (k : Nat) :
    (brainstormAgents topic r R results gwAt tsAt agents k).entries.map
        (fun e => (e.round, e.agent, e.type)) =
      (namesOf agents).map (fun nm => (some (r + 1), nm, "brainstorm")) := by
  induction agents generalizing k with
  | nil => rfl
  | cons a rest ih => simp [brainstormAgents, namesOf, ih (k + 1)]

theorem ba_prompts (topic : String) (r R : Nat) (results : List String)
    (gwAt : Nat → GatewayResult) (tsAt : Nat → String) (agents : List ResearchAgent) (k : Nat) :
    (brainstormAgents topic r R results gwAt tsAt agents k).prompts =
      (specsOf agents).map (fun sp => brainstormPrompt topic r R results sp) := by
  induction agents generalizing k with
  | nil => rfl
  | cons a rest ih => simp [brainstormAgents, specsOf, ih (k + 1)]

theorem ba_ideas (topic : String) (r R : Nat) (results : List String)
    (gwAt : Nat → GatewayResult) (tsAt : Nat → String) (agents : List ResearchAgent) (k : Nat) :
    (brainstormAgents topic r R results gwAt tsAt agents k).ideas =
      roundIdeasAt gwAt (namesOf agents) k := by
  induction agents generalizing k with
  | nil => rfl
  | cons a rest ih =>
      simp [brainstormAgents, namesOf, roundIdeasAt, generate_response_fst, ih (k + 1)]

theorem ba_kEnd (topic : String) (r R : Nat) (results : List String)
    (gwAt : Nat → GatewayResult) (tsAt : Nat → String) (agents : List ResearchAgent) (k : Nat) :
    (brainstormAgents topic r R results gwAt tsAt agents k).kEnd = k + agents.length := by
  induction agents generalizing k with
  | nil => simp [brainstormAgents]
  | cons a rest ih =>
      simp [brainstormAgents, ih (k + 1)]
      omega

theorem namesOf_length (agents : List ResearchAgent) : (namesOf agents).length = agents.length := by
  simp [namesOf]

theorem bl_names (topic : String) (R : Nat) (gwAt : Nat → GatewayResult) (tsAt : Nat → String)
    (fuel r : Nat) (agents : List ResearchAgent) (results : List String) (k : Nat) :
    namesOf (brainstormLoop topic R gwAt tsAt fuel r agents results k).agents = namesOf agents := by
  induction fuel generalizing r agents results k with
  | zero => rfl
  | succ fuel ih =>
      simp only [brainstormLoop]
      rw [ih, ba_names]

theorem bl_entries (topic : String) (R : Nat) (gwAt : Nat → GatewayResult) (tsAt : Nat → String)
    (fuel r : Nat) (agents : List ResearchAgent) (results : List String) (k : Nat) :
    (brainstormLoop topic R gwAt tsAt fuel r agents results k).entries.map
        (fun e => (e.round, e.agent, e.type)) =
      catMap (fun m => (namesOf agents).map (fun nm => (some (r + m + 1), nm, "brainstorm")))
        (List.range fuel) := by
  induction fuel generalizing r agents results k with
  | zero => rfl
  | succ fuel ih =>
      simp only [brainstormLoop, List.map_append]
      rw [ba_entries, ih, ba_names, catMap_range_succ]
      simp only [Nat.add_zero]
      congr 1
      apply catMap_congr
      intro m _
      have h : r + 1 + m + 1 = r + (m + 1) + 1 := by omega
      rw [h]

theorem bl_prompts (topic : String) (R : Nat) (gwAt : Nat → GatewayResult) (tsAt : Nat → String)
    (fuel r : Nat) (agents : List ResearchAgent) (results : List String) (k : Nat) :
    (brainstormLoop topic R gwAt tsAt fuel r agents results k).prompts =
      catMap (fun m => (specsOf agents).map
          (fun sp => brainstormPrompt topic (r + m) R (snapAt gwAt (namesOf agents) m results k) sp))
        (List.range fuel) := by
  induction fuel generalizing r agents results k with
  | zero => rfl
  | succ fuel ih =>
      simp only [brainstormLoop]
      rw [ba_prompts, ih, ba_specs, ba_names, ba_ideas, ba_kEnd, catMap_range_succ]
      simp only [snapAt, Nat.add_zero]
      apply congrArg (HAppend.hAppend
        (List.map (fun sp => brainstormPrompt topic r R results sp) (specsOf agents)))
      apply catMap_congr
      intro m _
      have h1 : r + 1 + m = r + (m + 1) := by omega
      have h2 : (namesOf agents).length = agents.length := namesOf_length agents
      rw [h1, h2]

theorem add_research_note_name (a : ResearchAgent) (n t : String) :
    (add_research_note a n t).name = a.name := rfl

theorem da_names (topic rtopic : String) (r rounds : Nat) (gwAt : Nat → GatewayResult)
    (tsAt : Nat → String) (agents : List ResearchAgent) (disc : List String)
    (ctx : List Msg) (k : Nat) :
    namesOf (discussionAgents topic rtopic r rounds gwAt tsAt agents disc ctx k).agents =
      namesOf agents := by
  induction agents generalizing disc ctx k with
  | nil => rfl
  | cons a rest ih =>
      cases hp : discussionPrompt topic rtopic r rounds ctx a.specialty with
      | error e => simp [discussionAgents, hp]
      | ok prompt =>
          have h := ih (disc ++ ["[" ++ a.name ++ "]: " ++
            (generate_response a prompt (some ctx) (fun _ => gwAt k) (tsAt k)).1])
            (ctx ++ [Msg.mk "assistant" ("[" ++ a.name ++ "]: " ++
              (generate_response a prompt (some ctx) (fun _ => gwAt k) (tsAt k)).1)]) (k + 1)
          simp only [namesOf] at h
          simp [discussionAgents, hp, namesOf, generate_response_name, h]

theorem dr_names (topic rtopic : String) (rounds : Nat) (gwAt : Nat → GatewayResult)
    (tsAt : Nat → String) (fuel r : Nat) (agents : List ResearchAgent)
    (disc : List String) (ctx : List Msg) (k : Nat) :
    namesOf (discussionRounds topic rtopic rounds gwAt tsAt fuel r agents disc ctx k).agents =
      namesOf agents := by
  induction fuel generalizing r agents disc ctx k with
  | zero => rfl
  | succ fuel ih =>
      simp only [discussionRounds]
      split
      · exact da_names topic rtopic r rounds gwAt tsAt agents disc ctx k
      · rw [ih, da_names]

theorem el_names (rtopic : String) (logLen : Nat) (gwAt : Nat → GatewayResult)
    (tsAt : Nat → String) (agents : List ResearchAgent) (scores : List (String × Int))
    (k : Nat) :
    namesOf (evalLoop rtopic logLen gwAt tsAt agents scores k).1 = namesOf agents := by
  induction agents generalizing scores k with
  | nil => rfl
  | cons a rest ih =>
      have h := ih (dictSet scores a.name (parseScore
        (generate_response a (satisfactionPrompt rtopic a.research_notes.length logLen)
          none (fun _ => gwAt k) (tsAt k)).1)) (k + 1)
      simp only [namesOf] at h
      simp [evalLoop, namesOf, generate_response_name, h]

theorem il_names (feedback : String) (gwAt : Nat → GatewayResult)
    (agents : List ResearchAgent) (k : Nat) :
    namesOf (improveLoop feedback gwAt agents k).1 = namesOf agents := by
  induction agents generalizing k with
  | nil => rfl
  | cons a rest ih =>
      have h := ih (k + 1)
      simp only [namesOf] at h
      simp [improveLoop, namesOf, improve_name, h]

theorem rl_names (rtopic : String) (searchAt : Nat → String) (gwAt : Nat → GatewayResult)
    (tsAt : Nat → String) (queries : List String) (agents : List ResearchAgent) (k : Nat) :
    namesOf (researchLoop rtopic searchAt gwAt tsAt queries agents k).agents =
      namesOf agents := by
  induction queries generalizing agents k with
  | nil => rfl
  | cons q rest ih =>
      cases agents with
      | nil => rfl
      | cons a0 others =>
          have h := ih (add_research_note
            (generate_response a0 (researchPrompt q (searchAt k) rtopic) none
              (fun _ => gwAt k) (tsAt k)).2
            ("Search: " ++ q ++ "\nFindings: " ++
              (generate_response a0 (researchPrompt q (searchAt k) rtopic) none
                (fun _ => gwAt k) (tsAt k)).1) (tsAt k) :: others) (k + 1)
          simp only [namesOf] at h
          simp [researchLoop, namesOf, add_research_note_name, generate_response_name, h]

theorem ca_names (prompt : String) (gwAt : Nat → GatewayResult) (tsAt : Nat → String)
    (k : Nat) (agents : List ResearchAgent) (i : Nat) :
    namesOf (callAt prompt gwAt tsAt k agents i).2 = namesOf agents := by
  induction agents generalizing i with
  | nil => rfl
  | cons a rest ih =>
      cases i with
      | zero => simp [callAt, namesOf, generate_response_name]
      | succ i =>
          have h := ih i
          simp only [namesOf] at h
          simp [callAt, namesOf, h]

theorem ml_names (rtopic : String) (gwAt : Nat → GatewayResult) (tsAt : Nat → String)
    (agents : List ResearchAgent) (k : Nat) :
    namesOf (methodologyLoop rtopic gwAt tsAt agents k).1 = namesOf agents := by
  induction agents generalizing k with
  | nil => rfl
  | cons a rest ih =>
      have h := ih (k + 1)
      simp only [namesOf] at h
      simp [methodologyLoop, namesOf, generate_response_name, h]

theorem paper_names (o : Orchestrator) (gwAt : Nat → GatewayResult) (tsAt : Nat → String) :
    namesOf (generate_paper_sections o gwAt tsAt).2.agents = namesOf o.agents := by
  rcases ha : o.agents with _ | ⟨a0, rest0⟩
  · simp [generate_paper_sections, ha]
  · simp only [generate_paper_sections, ha]
    rw [ca_names, ca_names, ml_names, ca_names]
    simp [namesOf, generate_response_name]

theorem el_scores_mono (rtopic : String) (logLen : Nat) (gwAt : Nat → GatewayResult)
    (tsAt : Nat → String) (agents : List ResearchAgent) (scores : List (String × Int))
    (k : Nat) (n : String) (v : Int) (hv : dictLookup scores n = some v)
    (h1 : 1 ≤ v) (h2 : v ≤ 10) :
    ∃ v2, dictLookup (evalLoop rtopic logLen gwAt tsAt agents scores k).2.1 n = some v2 ∧
      1 ≤ v2 ∧ v2 ≤ 10 := by
  induction agents generalizing scores k v with
  | nil => exact ⟨v, hv, h1, h2⟩
  | cons a rest ih =>
      simp only [evalLoop]
      by_cases hn : n = a.name
      · subst hn
        exact ih _ (k + 1) _ (dictLookup_dictSet_self scores a.name _)
          (parseScore_range _).1 (parseScore_range _).2
      · exact ih _ (k + 1) v (by rw [dictLookup_dictSet_ne _ _ _ _ hn]; exact hv) h1 h2

theorem el_scores_mem (rtopic : String) (logLen : Nat) (gwAt : Nat → GatewayResult)
    (tsAt : Nat → String) (agents : List ResearchAgent) (scores : List (String × Int))
    (k : Nat) (a : ResearchAgent) (ha : a ∈ agents) :
    ∃ v, dictLookup (evalLoop rtopic logLen gwAt tsAt agents scores k).2.1 a.name = some v ∧
      1 ≤ v ∧ v ≤ 10 := by
  induction agents generalizing scores k with
  | nil => cases ha
  | cons b rest ih =>
      simp only [evalLoop]
      rcases List.mem_cons.mp ha with rfl | hmem
      · exact el_scores_mono _ _ _ _ _ _ _ _ _ (dictLookup_dictSet_self scores a.name _)
          (parseScore_range _).1 (parseScore_range _).2
      · exact ih _ (k + 1) hmem

theorem el_hasKey (rtopic : String) (logLen : Nat) (gwAt : Nat → GatewayResult)
    (tsAt : Nat → String) (agents : List ResearchAgent) (scores : List (String × Int))
    (k : Nat) (n : String) :
    hasKey (evalLoop rtopic logLen gwAt tsAt agents scores k).2.1 n ↔
      hasKey scores n ∨ n ∈ namesOf agents := by
  induction agents generalizing scores k with
  | nil => simp [evalLoop, namesOf]
  | cons a rest ih =>
      simp only [evalLoop]
      rw [ih]
      rw [hasKey_dictSet]
      simp only [namesOf, List.map_cons, List.mem_cons]
      constructor
      · rintro ((h | h) | h)
        · exact Or.inr (Or.inl h)
        · exact Or.inl h
        · exact Or.inr (Or.inr (by simpa [namesOf] using h))
      · rintro (h | (h | h))
        · exact Or.inl (Or.inr h)
        · exact Or.inl (Or.inl h)
        · exact Or.inr (by simpa [namesOf] using h)

/-! ### Claim theorems -/

/-- Claim C3: for every respond call with a context list of any length, the
message list sent to the Model Gateway contains exactly the last
min(10, length) context messages, in their original order (a suffix of the
context: most recent kept, oldest dropped first), between the system
instructions and the user prompt; with no context only the system and user
messages are sent. -/
theorem C3_context_window (a : ResearchAgent) (prompt : String) (ctx : List Msg) :
    sentMessages a prompt (some ctx) =
        [Msg.mk "system" a.system_prompt] ++ lastN 10 ctx ++ [Msg.mk "user" prompt] ∧
      (lastN 10 ctx).length = min 10 ctx.length ∧
      lastN 10 ctx <:+ ctx ∧
      sentMessages a prompt none = [Msg.mk "system" a.system_prompt, Msg.mk "user" prompt] := by
  refine ⟨?_, lastN_length 10 ctx, lastN_suffix 10 ctx, rfl⟩
  cases ctx with
  | nil => simp [sentMessages, lastN]
  | cons m ms => simp [sentMessages, lastN]

/-- Claim C4 counterexample: a failing gateway call returns the textual error
marker but appends nothing to the private history, so the claim that a
record is appended "both when the gateway call succeeds and when it fails"
is false on this input. -/
theorem C4_counterexample :
    (generate_response (ResearchAgent.init "A" "sA" "m") "p" none
        (fun _ => .failure "boom") "t").1 = "Error generating response: boom" ∧
      (generate_response (ResearchAgent.init "A" "sA" "m") "p" none
        (fun _ => .failure "boom") "t").2 = ResearchAgent.init "A" "sA" "m" ∧
      ¬ ((generate_response (ResearchAgent.init "A" "sA" "m") "p" none
          (fun _ => .failure "boom") "t").2.conversation_history.length =
        (ResearchAgent.init "A" "sA" "m").conversation_history.length + 1) := by
  exact ⟨rfl, rfl, by decide⟩

/-- Claim C4 (amended): a respond call appends exactly one
(prompt, response, timestamp) record to the private history when the gateway
call succeeds; when it fails, the call returns the textual error marker
instead of propagating a typed failure and leaves the agent, including its
private history, unchanged. -/
theorem C4_history_policy (a : ResearchAgent) (p : String) (c : Option (List Msg))
    (gw : List Msg → GatewayResult) (t : String) :
    (∀ s, gw (sentMessages a p c) = .success s →
      (generate_response a p c gw t).2.conversation_history =
          a.conversation_history ++ [{ timestamp := t, prompt := p, response := s }] ∧
        (generate_response a p c gw t).1 = s) ∧
    (∀ e, gw (sentMessages a p c) = .failure e →
      (generate_response a p c gw t).2 = a ∧
        (generate_response a p c gw t).1 = "Error generating response: " ++ e) := by
  constructor
  · intro s hs
    rw [generate_response_success a p c gw t s hs]
    exact ⟨rfl, rfl⟩
  · intro e he
    rw [generate_response_failure a p c gw t e he]
    exact ⟨rfl, rfl⟩

/-- Witness for C4: both branches of the amended policy at concrete inputs. -/
theorem C4_history_policy_witness :
    (generate_response (ResearchAgent.init "A" "sA" "m") "p" none
        (fun _ => .success "ok") "t").2.conversation_history =
      (ResearchAgent.init "A" "sA" "m").conversation_history ++
        [{ timestamp := "t", prompt := "p", response := "ok" }] ∧
    (generate_response (ResearchAgent.init "A" "sA" "m") "p" none
        (fun _ => .failure "boom") "t").2 = ResearchAgent.init "A" "sA" "m" :=
  ⟨((C4_history_policy (ResearchAgent.init "A" "sA" "m") "p" none
      (fun _ => .success "ok") "t").1 "ok" rfl).1,
   ((C4_history_policy (ResearchAgent.init "A" "sA" "m") "p" none
      (fun _ => .failure "boom") "t").2 "boom" rfl).1⟩

/-- Claim C7 counterexample: a gateway response carrying surrounding
whitespace is stored stripped, not verbatim: the stored instructions differ
from the response text. -/
theorem C7_counterexample :
    (improve_system_prompt (ResearchAgent.init "A" "sA" "m") none
        (fun _ => .success " new prompt ")).2.system_prompt = "new prompt" ∧
      " new prompt " ≠ "new prompt" := by
  exact ⟨by decide, by decide⟩

/-- Claim C7 (amended): each successful revise call increments
revision_count by exactly 1 and replaces the instructions with the
gateway response stripped of leading and trailing whitespace
(`str.strip()`), unconditionally and without validation; all other agent
fields are untouched. -/
theorem C7_revise_updates (a : ResearchAgent) (fb : Option String) (s : String) :
    (improve_system_prompt a fb (fun _ => .success s)).2.system_prompt = pyStrip s ∧
    (improve_system_prompt a fb (fun _ => .success s)).2.improvement_count =
        a.improvement_count + 1 ∧
    (improve_system_prompt a fb (fun _ => .success s)).2.conversation_history =
        a.conversation_history ∧
    (improve_system_prompt a fb (fun _ => .success s)).2.research_notes = a.research_notes ∧
    (improve_system_prompt a fb (fun _ => .success s)).2.name = a.name :=
  ⟨rfl, rfl, rfl, rfl, rfl⟩

/-- Claim C10: when the gateway call inside revise fails, the whole
operation is atomic: the returned report is the textual error marker and the
agent state (instructions, revision_count, private history, notes) is
exactly the input state. -/
theorem C10_revise_failure_atomic (a : ResearchAgent) (fb : Option String)
    (gw : List Msg → GatewayResult) (e : String)
    (h : gw (improveMessages a fb) = .failure e) :
    improve_system_prompt a fb gw = ("Error improving prompt: " ++ e, a) := by
  simp [improve_system_prompt, h]

/-- Witness for C10: a concrete failing revise call. -/
theorem C10_revise_failure_atomic_witness :
    improve_system_prompt (ResearchAgent.init "A" "sA" "m") none (fun _ => .failure "down") =
      ("Error improving prompt: down", ResearchAgent.init "A" "sA" "m") :=
  C10_revise_failure_atomic (ResearchAgent.init "A" "sA" "m") none
    (fun _ => .failure "down") "down" rfl

set_option maxRecDepth 8192 in
/-- Claim C5: after Evaluate Satisfaction runs, every roster agent's entry in
the satisfaction table holds a value in [1, 10]; the parse takes the digit
characters of the first whitespace token and clamps to [1, 10], and any
parse failure (non-numeric such as "garbage", empty, whitespace-only) yields
5 — as witnessed both by the parse function and by a concrete run storing 5
for a "garbage" response. -/
theorem C5_satisfaction_scores (o : Orchestrator) (gwAt : Nat → GatewayResult)
    (tsAt : Nat → String) (a : ResearchAgent) (ha : a ∈ o.agents) :
    (∃ v, dictLookup (evaluate_satisfaction o gwAt tsAt).2.satisfaction_scores a.name =
        some v ∧ 1 ≤ v ∧ v ≤ 10) ∧
    (∀ s, 1 ≤ parseScore s ∧ parseScore s ≤ 10) ∧
    parseScore "garbage" = 5 ∧ parseScore "" = 5 ∧ parseScore "   " = 5 ∧
    parseScore "7" = 7 ∧ parseScore "12" = 10 ∧
    dictLookup (evaluate_satisfaction oA (fun _ => .success "garbage")
        tsTick).2.satisfaction_scores "A" = some 5 := by
  refine ⟨?_, parseScore_range, by decide, by decide, by decide, by decide, by decide,
    by decide⟩
  simp only [evaluate_satisfaction]
  exact el_scores_mem o.research_topic o.discussion_log.length gwAt tsAt o.agents
    o.satisfaction_scores 0 a ha

set_option maxRecDepth 8192 in
/-- Witness for C5: the roster agent of a concrete one-agent run has a score
in range. -/
theorem C5_satisfaction_scores_witness :
    ∃ v, dictLookup (evaluate_satisfaction oA gwIdeas tsTick).2.satisfaction_scores
        (ResearchAgent.init "A" "sA" "m").name = some v ∧ 1 ≤ v ∧ v ≤ 10 :=
  (C5_satisfaction_scores oA gwIdeas tsTick (ResearchAgent.init "A" "sA" "m") (by decide)).1

/-- Claim C6: Check Consensus returns false on an empty satisfaction table
and otherwise returns true exactly when the mean of the table values reaches
the configured target; scores `{A: 9, B: 9}` at target 8 give true and
`{A: 9, B: 6}` (mean 7.5) give false. -/
theorem C6_check_consensus :
    (∀ o : Orchestrator, o.satisfaction_scores = [] → check_consensus o = false) ∧
    (∀ o : Orchestrator, o.satisfaction_scores ≠ [] →
      (check_consensus o = true ↔ (o.target_satisfaction : ℚ) ≤ meanScores o)) ∧
    check_consensus consensusHi = true ∧
    check_consensus consensusLo = false := by
  refine ⟨?_, ?_, ?_, ?_⟩
  · intro o h
    simp [check_consensus, h]
  · intro o h
    have hne : o.satisfaction_scores.isEmpty = false := by
      cases hs : o.satisfaction_scores with
      | nil => exact absurd hs h
      | cons p l => rfl
    rw [check_consensus, if_neg (by simp [hne])]
    exact decide_eq_true_iff
  · norm_num [check_consensus, meanScores, consensusHi, Orchestrator.empty]
  · norm_num [check_consensus, meanScores, consensusLo, Orchestrator.empty]

/-- Witness for C6: the empty-table clause at the fresh session and the
mean-test clause at the concrete table `{A: 9, B: 9}`. -/
theorem C6_check_consensus_witness :
    check_consensus Orchestrator.empty = false ∧
      (check_consensus consensusHi = true ↔
        (consensusHi.target_satisfaction : ℚ) ≤ meanScores consensusHi) :=
  ⟨C6_check_consensus.1 Orchestrator.empty rfl,
   C6_check_consensus.2.1 consensusHi (by decide)⟩

theorem strContains_of_eq (hay pre x post : String) (h : hay = pre ++ x ++ post) :
    strContains hay x = true := by
  rw [h]
  exact strContains_append_mid pre x post

theorem paper_scores (o : Orchestrator) (gwAt : Nat → GatewayResult) (tsAt : Nat → String) :
    (generate_paper_sections o gwAt tsAt).2.satisfaction_scores = o.satisfaction_scores := by
  rcases ha : o.agents with _ | ⟨a0, rest0⟩ <;> simp [generate_paper_sections, ha]

/-- Claim C1 counterexample: on roster [A, B] with 2 rounds, the transcript
entries appear grouped by round (A, B, A, B), which is not the
roster-major, round-minor order (which would be A round 1, A round 2,
B round 1, B round 2). -/
theorem C1_counterexample :
    ((conduct_brainstorm_session oAB 2 gwIdeas tsTick).2.discussion_log.map
        (fun e => (e.agent, e.round)) =
      [("A", some 1), ("B", some 1), ("A", some 2), ("B", some 2)]) ∧
    ¬ rosterMajorRoundMinor ["A", "B"] 2
        (conduct_brainstorm_session oAB 2 gwIdeas tsTick).2.discussion_log := by
  constructor
  · decide
  · unfold rosterMajorRoundMinor
    decide

/-- Claim C1 (amended): for every roster of N ≥ 1 agents and every R ≥ 1,
Brainstorm appends exactly N*R entries with phase brainstorm to the
transcript, in round-major, Roster-minor order: the rounds in ascending
order and, within each round, the agents in Roster order. -/
theorem C1_brainstorm_appends (o : Orchestrator) (R : Nat) (gwAt : Nat → GatewayResult)
    (tsAt : Nat → String) (hN : 1 ≤ o.agents.length) (hR : 1 ≤ R) :
    (conduct_brainstorm_session o R gwAt tsAt).2.discussion_log.take
        o.discussion_log.length = o.discussion_log ∧
    ((conduct_brainstorm_session o R gwAt tsAt).2.discussion_log.drop
        o.discussion_log.length).map (fun e => (e.round, e.agent, e.type)) =
      catMap (fun r => (namesOf o.agents).map (fun nm => (some (r + 1), nm, "brainstorm")))
        (List.range R) ∧
    ((conduct_brainstorm_session o R gwAt tsAt).2.discussion_log.drop
        o.discussion_log.length).length = o.agents.length * R := by
  have hlog : (conduct_brainstorm_session o R gwAt tsAt).2.discussion_log =
      o.discussion_log ++
        (brainstormLoop o.research_topic R gwAt tsAt R 0 o.agents [] 0).entries := rfl
  rw [hlog, List.take_left, List.drop_left]
  have hmap : (brainstormLoop o.research_topic R gwAt tsAt R 0 o.agents [] 0).entries.map
      (fun e => (e.round, e.agent, e.type)) =
      catMap (fun r => (namesOf o.agents).map (fun nm => (some (r + 1), nm, "brainstorm")))
        (List.range R) := by
    rw [bl_entries]
    apply catMap_congr
    intro m _
    have h : 0 + m + 1 = m + 1 := by omega
    rw [h]
  refine ⟨rfl, hmap, ?_⟩
  have hlen := congrArg List.length hmap
  rw [List.length_map] at hlen
  rw [hlen, catMap_length_const _ _ o.agents.length
    (fun r _ => by rw [List.length_map, namesOf_length]), List.length_range]
  exact Nat.mul_comm R o.agents.length

/-- Witness for C1 (amended): a one-agent, one-round session appends exactly
1 * 1 entries. -/
theorem C1_brainstorm_appends_witness :
    ((conduct_brainstorm_session oA 1 gwIdeas tsTick).2.discussion_log.drop
        oA.discussion_log.length).length = oA.agents.length * 1 :=
  (C1_brainstorm_appends oA 1 gwIdeas tsTick (by decide) (by decide)).2.2

/-- Claim C2 counterexample: on roster [A, B] with rounds = 1, agent A's
round-1 idea "[A]: alpha" is produced in the same call, yet the prompt built
for B (the second prompt of the call) does not contain it: within a round
the accumulated ideas list is not yet extended, so later agents do not see
earlier agents of the same round. -/
theorem C2_counterexample :
    (conduct_brainstorm_session oAB 1 gwIdeas tsTick).1 = ["[A]: alpha", "[B]: beta"] ∧
    (brainstormPrompts oAB 1 gwIdeas tsTick).length = 2 ∧
    strContains ((brainstormPrompts oAB 1 gwIdeas tsTick).getD 1 "") "[A]: alpha" = false := by
  exact ⟨by decide, by decide, by decide⟩

/-- Claim C2 (amended): during a Brainstorm call the prompt of every agent in
round r is built from the snapshot of idea entries accumulated in rounds
strictly before r — all agents of one round share the same snapshot, so
outputs of agents earlier in Roster order in the same round are not included
(per-round snapshot staging); when the snapshot is nonempty, the prompt
contains its last 5 entries joined by newlines as inlined text. -/
theorem C2_brainstorm_prompt_snapshot (o : Orchestrator) (R : Nat)
    (gwAt : Nat → GatewayResult) (tsAt : Nat → String) :
    brainstormPrompts o R gwAt tsAt =
      catMap (fun r => (specsOf o.agents).map
          (fun sp => brainstormPrompt o.research_topic r R
            (snapAt gwAt (namesOf o.agents) r [] 0) sp))
        (List.range R) ∧
    (∀ topic r rounds results sp, results ≠ [] →
      strContains (brainstormPrompt topic r rounds results sp)
        (String.intercalate "\n" (lastN 5 results)) = true) := by
  constructor
  · unfold brainstormPrompts
    rw [bl_prompts]
    apply catMap_congr
    intro m _
    rw [Nat.zero_add]
  · intro topic r rounds results sp hres
    have hne : results.isEmpty = false := by
      cases results with
      | nil => exact absurd rfl hres
      | cons a l => rfl
    apply strContains_of_eq _
      ("Research Topic: " ++ topic ++ "\n                \nBrainstorming Round " ++
        toString (r + 1) ++ "/" ++ toString rounds ++ "\n\n" ++
        "Previous ideas from team:" ++ "\n")
      _
      ("\n\nAs an expert in " ++ sp ++
        ", provide 2-3 key research directions or hypotheses.\nBe specific and build upon previous ideas where relevant.")
    simp only [brainstormPrompt, hne, Bool.false_eq_true, if_false]
    simp only [String.append_assoc]

/-- Witness for C2 (amended): the nonempty-snapshot clause at a concrete
snapshot. -/
theorem C2_brainstorm_prompt_snapshot_witness :
    strContains (brainstormPrompt "X" 1 2 ["[A]: alpha"] "sB")
      (String.intercalate "\n" (lastN 5 ["[A]: alpha"])) = true :=
  (C2_brainstorm_prompt_snapshot oA 1 gwIdeas tsTick).2 "X" 1 2 ["[A]: alpha"] "sB"
    (by decide)

/-- Claim C8 (code bug witness): on roster [A, B] with rounds = 1, Structured
Discussion does not hand A's formatted message to B — building B's prompt
joins the context dicts as strings and raises TypeError, so the call aborts
with only A's turn logged and B's respond never invoked (B's private history
stays empty). -/
theorem C8_discussion_crash :
    (structured_discussion oAB "Y" 1 gwIdeas tsTick).1 =
        Except.error "TypeError: sequence item 0: expected str instance, dict found" ∧
      (structured_discussion oAB "Y" 1 gwIdeas tsTick).2.discussion_log.map
          (fun e => (e.agent, e.type)) = [("A", "discussion")] ∧
      (structured_discussion oAB "Y" 1 gwIdeas tsTick).2.agents.map
          (fun a => (a.name, a.conversation_history.length)) = [("A", 1), ("B", 0)] := by
  exact ⟨rfl, by decide, by decide⟩

/-- Claim C9: in every reachable session state, the satisfaction table's key
set equals the set of roster agent names: registration seeds the new name at
5, evaluation writes only roster names, and no other operation touches the
keys or removes roster members. -/
theorem C9_reachable_table_keys (o : Orchestrator) (h : Reachable o) (n : String) :
    hasKey o.satisfaction_scores n ↔ n ∈ namesOf o.agents := by
  induction h with
  | empty => simp [Orchestrator.empty, hasKey, namesOf]
  | add o2 nm s m _ ih =>
      simp only [add_agent]
      rw [hasKey_dictSet, ih]
      have hnames : namesOf (o2.agents ++ [ResearchAgent.init nm s m]) =
          namesOf o2.agents ++ [nm] := by
        simp [namesOf, ResearchAgent.init]
      rw [hnames, List.mem_append, List.mem_singleton]
      tauto
  | topic o2 t _ ih => simpa [set_research_topic] using ih
  | brainstorm o2 R gwAt tsAt _ ih =>
      simpa [conduct_brainstorm_session, bl_names] using ih
  | research o2 qs searchAt gwAt tsAt _ ih =>
      simpa [conduct_research_phase, rl_names] using ih
  | discussion o2 t R gwAt tsAt _ ih =>
      simpa [structured_discussion, dr_names] using ih
  | evaluate o2 gwAt tsAt _ ih =>
      simp only [evaluate_satisfaction]
      rw [el_hasKey, el_names, ih]
      tauto
  | improve o2 gwAt _ ih =>
      simpa [trigger_self_improvement, il_names] using ih
  | paper o2 gwAt tsAt _ ih =>
      rw [paper_scores, paper_names]
      exact ih

/-- Witness for C9: after registering agent A in a fresh session, the key
"A" is present. -/
theorem C9_reachable_table_keys_witness :
    hasKey (add_agent Orchestrator.empty "A" "sA" "m").satisfaction_scores "A" :=
  (C9_reachable_table_keys _
    (Reachable.add Orchestrator.empty "A" "sA" "m" Reachable.empty) "A").mpr
    (by simp [add_agent, Orchestrator.empty, namesOf, ResearchAgent.init])

end Hivemind
